import Mathlib

/-!
# Verification of the AI_engine provider/key rotation and failover core

Shallow embedding of the Python sources `src/ai_engine.py` and
`src/model_cache.py`.  Conventions used throughout:

* Python `datetime` timestamps are modelled as whole seconds since the local
  epoch (one frozen clock value `now` stands for the `datetime.now()` calls
  made inside a single operation).
* Python floats (weights, scores, latencies) are modelled as exact rationals.
* Python strings are searched through their character lists; the helper
  functions below mirror `str.lower` and the `in` substring test for the
  ASCII texts the engine handles.
* Fallible lookups return `Option`.
-/

namespace AIEngine

/-- Mirrors Python `str.lower()` restricted to ASCII letters (all the texts
the classifier and the model cache compare are ASCII). -/
def lowerChars (s : String) : List Char :=
  s.data.map Char.toLower

/-- Predicate `charsMatch n h` is true when `n` is an initial segment of `h`. -/
def charsMatch : List Char → List Char → Bool
  | [], _ => true
  | _ :: _, [] => false
  | a :: as, b :: bs => a == b && charsMatch as bs

/-- Predicate `hasSub n h` mirrors the Python substring test `n in h`. -/
def hasSub (n : List Char) : List Char → Bool
  | [] => charsMatch n []
  | b :: bs => charsMatch n (b :: bs) || hasSub n bs

/-- True when some pattern of `pats` occurs in `corpus`; mirrors
`any(pattern in combined_text for pattern in patterns)`. -/
def anyPatIn (pats : List String) (corpus : List Char) : Bool :=
  pats.any (fun p => hasSub p.data corpus)

/-! ## Error classifier (`AI_engine._classify_error`, src/ai_engine.py lines 507-572) -/

/-- The list `rate_limit_patterns` from `_classify_error`. -/
def rate_limit_patterns : List String :=
  ["rate limit", "too many requests", "quota exceeded", "requests per minute",
   "rpm exceeded", "rate limited", "throttled", "429", "rate_limit_exceeded",
   "requests_per_minute_limit_exceeded", "rate_limit_reached"]

/-- The list `auth_error_patterns` from `_classify_error`. -/
def auth_error_patterns : List String :=
  ["invalid key", "unauthorized", "forbidden", "api key", "invalid_api_key",
   "authentication failed", "invalid token", "access denied", "invalid_request_error",
   "incorrect api key", "invalid_api_key", "api_key_invalid", "authentication_error"]

/-- The list `quota_patterns` from `_classify_error`. -/
def quota_patterns : List String :=
  ["daily limit", "monthly quota", "usage limit", "quota_exceeded", "insufficient_quota",
   "billing_hard_limit_reached", "usage_limit_exceeded", "credit limit", "balance insufficient"]

/-- The list `service_patterns` from `_classify_error`. -/
def service_patterns : List String :=
  ["model not found", "service unavailable", "model_not_found", "invalid_model",
   "model temporarily unavailable", "service_unavailable", "model_overloaded",
   "engine_overloaded", "server_overloaded"]

/-- The list `network_patterns` from `_classify_error`. -/
def network_patterns : List String :=
  ["timeout", "connection error", "network error", "connection timeout",
   "read timeout", "connect timeout", "connection refused", "network_error"]

/-- The search corpus `combined_text = f"{error_lower} {error_details}"` built by
`_classify_error`.  The optional structured error body is taken already
stringified (Python applies `str(...)` to the JSON dict); `none` covers both a
missing and a falsy body. -/
def combinedText (error_message : String) (response_json : Option String) : List Char :=
  lowerChars error_message ++ [' '] ++
    (match response_json with
     | some s => lowerChars s
     | none => [])

/-- Source `AI_engine._classify_error` (src/ai_engine.py lines 507-572): the if-chain
of pattern-set and status tests, in source order. -/
def classify_error (error_message : String) (status_code : Nat)
    (response_json : Option String) : String :=
  let corpus := combinedText error_message response_json
  if anyPatIn rate_limit_patterns corpus || status_code == 429 then "rate_limit"
  else if anyPatIn auth_error_patterns corpus || status_code == 401 || status_code == 403 then "auth_error"
  else if anyPatIn quota_patterns corpus then "quota_exceeded"
  else if anyPatIn service_patterns corpus || status_code == 503 then "service_unavailable"
  else if 500 ≤ status_code && status_code < 600 then "server_error"
  else if anyPatIn network_patterns corpus then "network_error"
  else if status_code == 400 then "bad_request"
  else "unknown"

/-- Per-kind match predicate, following the wording of spec section 4.3: each
error kind owns a phrase set and/or a status test. -/
def kindMatches (corpus : List Char) (status_code : Nat) : String → Bool
  | "rate_limit" => anyPatIn rate_limit_patterns corpus || status_code == 429
  | "auth_error" => anyPatIn auth_error_patterns corpus || status_code == 401 || status_code == 403
  | "quota_exceeded" => anyPatIn quota_patterns corpus
  | "service_unavailable" => anyPatIn service_patterns corpus || status_code == 503
  | "server_error" => 500 ≤ status_code && status_code < 600
  | "network_error" => anyPatIn network_patterns corpus
  | "bad_request" => status_code == 400
  | _ => false

/-- The fixed precedence order of spec section 4.3. -/
def precedenceOrder : List String :=
  ["rate_limit", "auth_error", "quota_exceeded", "service_unavailable",
   "server_error", "network_error", "bad_request"]

/-- Modelled from the words of the spec: test the kinds in precedence order and
return the first whose predicate matches, falling back to "unknown". -/
def classify_by_precedence (error_message : String) (status_code : Nat)
    (response_json : Option String) : String :=
  let corpus := combinedText error_message response_json
  (precedenceOrder.find? (fun k => kindMatches corpus status_code k)).getD "unknown"

/-- C3: the classifier checks the kinds in the fixed precedence order
rate_limit, auth_error, quota_exceeded, service_unavailable, server_error,
network_error, bad_request, unknown and returns the first kind that matches;
in particular a status-503 response whose body contains "timeout" classifies
as service_unavailable, not network_error. -/
theorem classifier_precedence_C3 :
    (∀ (msg : String) (status : Nat) (body : Option String),
      classify_error msg status body = classify_by_precedence msg status body) ∧
    classify_error "" 503 (some "upstream timeout while contacting model") = "service_unavailable" ∧
    (classify_error "" 503 (some "upstream timeout while contacting model") == "network_error") = false := by
  refine ⟨fun msg status body => ?_, by decide, by decide⟩
  unfold classify_error classify_by_precedence
  cases h1 : (anyPatIn rate_limit_patterns (combinedText msg body) || status == 429) <;>
    cases h2 : (anyPatIn auth_error_patterns (combinedText msg body) || status == 401 || status == 403) <;>
      cases h3 : anyPatIn quota_patterns (combinedText msg body) <;>
        cases h4 : (anyPatIn service_patterns (combinedText msg body) || status == 503) <;>
          cases h5 : ((500 ≤ status : Bool) && (status < 600 : Bool)) <;>
            cases h6 : anyPatIn network_patterns (combinedText msg body) <;>
              cases h7 : (status == 400) <;>
                simp [precedenceOrder, List.find?, kindMatches, h1, h2, h3, h4, h5, h6, h7]

/-! ## Model cache (`ModelCache`, src/model_cache.py) -/

/-- One entry of the cached model list: a JSON object that may carry an
`owned_by` field, a `provider` field and an `id` field
(`model_entry.get(...)` in `find_providers_for_model`). -/
structure ModelEntry where
  owned_by : Option String
  provider : Option String
  id : Option String
deriving DecidableEq

/-- Accessor `model_entry.get("owned_by", model_entry.get("provider", ""))`. -/
def entryProvider (e : ModelEntry) : String :=
  e.owned_by.getD (e.provider.getD "")

/-- Accessor `model_entry.get("id", "")`. -/
def entryId (e : ModelEntry) : String :=
  e.id.getD ""

/-- Source `ModelCache._normalize_model_name` (src/model_cache.py lines 136-140):
lower-case, then remove hyphens, underscores and dots.  The result is kept as
a character list, which is what the equality comparison consumes. -/
def normalize_model_name (model_name : String) : List Char :=
  ((((model_name.data.map Char.toLower).filter (fun c => c ≠ '-')).filter
      (fun c => c ≠ '_')).filter (fun c => c ≠ '.'))

/-- Drop everything up to and including the first slash; helper for
`model_id.split("/", 1)[1]`. -/
def dropThroughSlash : List Char → List Char
  | [] => []
  | c :: cs => if c = '/' then cs else dropThroughSlash cs

/-- The provider-prefix strip in `find_providers_for_model`:
`model_id.split("/", 1)[1]` when the id contains a slash. -/
def clean_model_id (model_id : String) : String :=
  if ('/') ∈ model_id.data then String.mk (dropThroughSlash model_id.data)
  else model_id

/-- The matching pass of `find_providers_for_model` (src/model_cache.py lines
108-123) before de-duplication: every entry whose normalized, prefix-stripped
id equals the normalized query contributes a (provider, clean id) pair. -/
def matching_pairs (model_name : String) (models : List ModelEntry) :
    List (String × String) :=
  models.filterMap (fun e =>
    if normalize_model_name (clean_model_id (entryId e)) = normalize_model_name model_name
    then some (entryProvider e, clean_model_id (entryId e))
    else none)

/-- The `seen`-set de-duplication loop of `find_providers_for_model`
(src/model_cache.py lines 126-133): keep the first occurrence of each pair. -/
def dedupPreservingOrder {α : Type} [DecidableEq α] (seen : List α) :
    List α → List α
  | [] => []
  | x :: rest =>
    if x ∈ seen then dedupPreservingOrder seen rest
    else x :: dedupPreservingOrder (x :: seen) rest

/-- Source `ModelCache.find_providers_for_model` (src/model_cache.py lines 96-134),
as a function of the cached model list. -/
def find_providers_for_model (model_name : String) (models : List ModelEntry) :
    List (String × String) :=
  dedupPreservingOrder [] (matching_pairs model_name models)

theorem dedup_sublist {α : Type} [DecidableEq α] :
    ∀ (l seen : List α), List.Sublist (dedupPreservingOrder seen l) l
  | [], _ => List.Sublist.refl []
  | x :: rest, seen => by
    unfold dedupPreservingOrder
    by_cases h : x ∈ seen
    · simp only [if_pos h]
      exact (dedup_sublist rest seen).cons x
    · simp only [if_neg h]
      exact (dedup_sublist rest (x :: seen)).cons₂ x

theorem dedup_not_mem_seen {α : Type} [DecidableEq α] :
    ∀ (l seen : List α) (x : α), x ∈ dedupPreservingOrder seen l → x ∉ seen
  | [], _, x => by simp [dedupPreservingOrder]
  | y :: rest, seen, x => by
    unfold dedupPreservingOrder
    by_cases h : y ∈ seen
    · simp only [if_pos h]
      exact dedup_not_mem_seen rest seen x
    · simp only [if_neg h]
      intro hx
      rcases List.mem_cons.mp hx with rfl | hx'
      · exact h
      · intro hseen
        exact dedup_not_mem_seen rest (y :: seen) x hx' (List.mem_cons_of_mem y hseen)

theorem dedup_nodup {α : Type} [DecidableEq α] :
    ∀ (l seen : List α), (dedupPreservingOrder seen l).Nodup
  | [], _ => List.nodup_nil
  | y :: rest, seen => by
    unfold dedupPreservingOrder
    by_cases h : y ∈ seen
    · simp only [if_pos h]
      exact dedup_nodup rest seen
    · simp only [if_neg h]
      refine List.nodup_cons.mpr ⟨?_, dedup_nodup rest (y :: seen)⟩
      intro hy
      exact dedup_not_mem_seen rest (y :: seen) y hy (List.mem_cons_self y seen)

/-- C8: `find_providers_for_model` matches strictly.  The result depends on
the query only through its normalization, the concrete normalizations of
"GPT-4", "gpt4" and "gpt-4" coincide, every returned pair's model id
normalizes to the query (so "gpt-4-turbo" never yields a pair whose id
normalizes like "gpt-4"), and duplicate pairs are removed while preserving
discovery order (the result is duplicate-free and a sublist of the matches). -/
theorem strict_model_matching_C8 :
    (∀ (models : List ModelEntry) (q1 q2 : String),
        normalize_model_name q1 = normalize_model_name q2 →
        find_providers_for_model q1 models = find_providers_for_model q2 models) ∧
    (normalize_model_name "GPT-4" = normalize_model_name "gpt-4" ∧
     normalize_model_name "gpt4" = normalize_model_name "gpt-4") ∧
    (∀ (models : List ModelEntry) (r : String × String),
        r ∈ find_providers_for_model "gpt-4-turbo" models →
        normalize_model_name r.2 ≠ normalize_model_name "gpt-4") ∧
    (∀ (models : List ModelEntry) (q : String),
        (find_providers_for_model q models).Nodup ∧
        List.Sublist (find_providers_for_model q models) (matching_pairs q models)) := by
  refine ⟨?_, ⟨by decide, by decide⟩, ?_, fun models q => ⟨dedup_nodup _ _, dedup_sublist _ _⟩⟩
  · intro models q1 q2 h
    unfold find_providers_for_model matching_pairs
    rw [h]
  · intro models r hr
    have hr' : r ∈ matching_pairs "gpt-4-turbo" models :=
      (dedup_sublist _ _).subset hr
    rcases List.mem_filterMap.mp hr' with ⟨e, _, hfe⟩
    by_cases hm : normalize_model_name (clean_model_id (entryId e)) =
        normalize_model_name "gpt-4-turbo"
    · rw [if_pos hm, Option.some_inj] at hfe
      rw [← hfe]
      rw [show (entryProvider e, clean_model_id (entryId e)).2 = clean_model_id (entryId e) from rfl,
        hm]
      decide
    · rw [if_neg hm] at hfe
      exact absurd hfe (Option.noConfusion)

/-- A concrete cache exercising `strict_model_matching_C8`: a prefixed id, a
differently-spelled duplicate-free variant, an exact duplicate, and a
"gpt-4-turbo" entry. -/
def sampleModels : List ModelEntry :=
  [⟨some "openai", none, some "openai/gpt-4"⟩,
   ⟨none, some "azure", some "GPT_4"⟩,
   ⟨some "openai", none, some "openai/gpt-4"⟩,
   ⟨some "xai", none, some "gpt-4-turbo"⟩]

theorem strict_model_matching_C8_witness :
    (normalize_model_name "GPT-4" = normalize_model_name "gpt-4" ∧
     find_providers_for_model "GPT-4" sampleModels =
       find_providers_for_model "gpt-4" sampleModels) ∧
    (("xai", "gpt-4-turbo") ∈ find_providers_for_model "gpt-4-turbo" sampleModels ∧
     normalize_model_name ("xai", "gpt-4-turbo").2 ≠ normalize_model_name "gpt-4") :=
  ⟨⟨by decide, strict_model_matching_C8.1 sampleModels "GPT-4" "gpt-4" (by decide)⟩,
   ⟨by decide, strict_model_matching_C8.2.2.1 sampleModels ("xai", "gpt-4-turbo") (by decide)⟩⟩

/-! ## Request results and the format adapter layer (src/ai_engine.py) -/

/-- The `RequestResult` dataclass (src/ai_engine.py lines 25-35).  The raw
structured response/error payload is carried as its stringified text. -/
structure RequestResult where
  success : Bool
  content : String
  status_code : Nat
  response_time : ℚ
  error_message : String
  error_type : String
  provider_used : String
  raw_response : Option String
deriving DecidableEq

/-- A `RequestResult` with the dataclass defaults filled in. -/
def RequestResult.failure (msg ty : String) : RequestResult :=
  ⟨false, "", 0, 0, msg, ty, "", none⟩

/-- An upstream HTTP reply as each adapter sees it after the wire call: the
status code, the response text, and the content string extracted through the
adapter-specific JSON path ("" when the path is absent). -/
structure UpstreamResponse where
  status_code : Nat
  text : String
  extracted : String
deriving DecidableEq

/-- Test `content.strip() == ''` holds exactly when every character of the content
is whitespace. -/
def stripIsEmpty (s : String) : Bool :=
  s.data.all Char.isWhitespace

/-- The response handling of `AI_engine._make_openai_request`
(src/ai_engine.py lines 749-782): a 200 with empty or whitespace-only
extracted content is an "empty_response" failure, any other 200 succeeds,
and a non-200 is an "http_error" failure. -/
def openai_handle_response (provider_name : String) (up : UpstreamResponse) : RequestResult :=
  if up.status_code = 200 then
    if up.extracted = "" || stripIsEmpty up.extracted then
      ⟨false, "", up.status_code, 0, "Empty response from " ++ provider_name,
        "empty_response", "", some up.text⟩
    else ⟨true, up.extracted, up.status_code, 0, "", "unknown", "", some up.text⟩
  else ⟨false, "", up.status_code, 0, up.text, "http_error", "", some up.text⟩

/-- The response handling of `AI_engine._make_gemini_request`
(src/ai_engine.py lines 824-840): a 200 is returned as a success with
whatever content was extracted — there is no empty-content validation in
this adapter. -/
def gemini_handle_response (up : UpstreamResponse) : RequestResult :=
  if up.status_code = 200 then
    ⟨true, up.extracted, up.status_code, 0, "", "unknown", "", some up.text⟩
  else ⟨false, "", up.status_code, 0, up.text, "http_error", "", none⟩

/-- The response handling of `AI_engine._make_cohere_request`
(src/ai_engine.py lines 872-899). -/
def cohere_handle_response (up : UpstreamResponse) : RequestResult :=
  if up.status_code = 200 then
    if up.extracted = "" || stripIsEmpty up.extracted then
      ⟨false, "", up.status_code, 0, "Empty response from Cohere",
        "empty_response", "", some up.text⟩
    else ⟨true, up.extracted, up.status_code, 0, "", "unknown", "", some up.text⟩
  else ⟨false, "", up.status_code, 0, up.text, "http_error", "", none⟩

/-- The response handling of `AI_engine._make_a3z_request`
(src/ai_engine.py lines 926-956); the JSON-or-raw-text fallback is folded
into the extracted content. -/
def a3z_handle_response (up : UpstreamResponse) : RequestResult :=
  if up.status_code = 200 then
    if up.extracted = "" || stripIsEmpty up.extracted then
      ⟨false, "", up.status_code, 0, "Empty response from A3Z",
        "empty_response", "", none⟩
    else ⟨true, up.extracted, up.status_code, 0, "", "unknown", "", some up.text⟩
  else ⟨false, "", up.status_code, 0, up.text, "http_error", "", none⟩

/-- The response handling of `AI_engine._make_cloudflare_request`
(src/ai_engine.py lines 965-1023), including the account-id configuration
check made before any network call. -/
def cloudflare_handle_response (account_id : Option String) (up : UpstreamResponse) :
    RequestResult :=
  match account_id with
  | none => RequestResult.failure "Cloudflare account_id not configured" "config_error"
  | some _ =>
    if up.status_code = 200 then
      if up.extracted = "" || stripIsEmpty up.extracted then
        ⟨false, "", up.status_code, 0, "Empty response from Cloudflare",
          "empty_response", "", some up.text⟩
      else ⟨true, up.extracted, up.status_code, 0, "", "unknown", "", some up.text⟩
    else ⟨false, "", up.status_code, 0, up.text, "http_error", "", none⟩

/-- C9 (code bug exhibit): four of the five adapters turn a 200 with empty
or whitespace-only extracted content into an "empty_response" failure, but
the Gemini adapter returns such a response as a success with empty content,
violating the success-implies-non-empty-content contract. -/
theorem adapter_empty_response_C9 :
    (gemini_handle_response ⟨200, "candidates-empty-body", ""⟩).success = true ∧
    (gemini_handle_response ⟨200, "candidates-empty-body", ""⟩).content = "" ∧
    (openai_handle_response "openai" ⟨200, "choices-empty-body", ""⟩).success = false ∧
    (openai_handle_response "openai" ⟨200, "choices-empty-body", ""⟩).error_type = "empty_response" ∧
    (cohere_handle_response ⟨200, "b", "  "⟩).error_type = "empty_response" ∧
    (a3z_handle_response ⟨200, "b", ""⟩).error_type = "empty_response" ∧
    (cloudflare_handle_response (some "acct") ⟨200, "b", " "⟩).error_type = "empty_response" := by
  decide

/-! ## Key load balancer (src/ai_engine.py lines 186-332)

Per-credential state: `key_usage_stats[provider]["key_i"]` and the request
timestamp window `key_request_count[provider]["key_i"]` are gathered into one
record per key slot, listed by ordinal index `i`. -/

/-- One credential slot's mutable tracking state. -/
structure KeyState where
  requests : Nat
  successes : Nat
  failures : Nat
  last_used : Option ℤ
  rate_limited : Bool
  weight : ℚ
  request_times : List ℤ
deriving DecidableEq

/-- The per-key stats installed by `AI_engine.__init__` (src/ai_engine.py
lines 92-102). -/
def initKeyState : KeyState :=
  ⟨0, 0, 0, none, false, 1, []⟩

/-- Apply `f` to the element at position `i`, a no-op when out of range
(mirroring the `if key_id in ...` guards). -/
def updateAt {α : Type} (f : α → α) : Nat → List α → List α
  | _, [] => []
  | 0, x :: xs => f x :: xs
  | n + 1, x :: xs => x :: updateAt f n xs

/-- Source `AI_engine._cleanup_request_counts` (src/ai_engine.py lines 290-302):
drop request timestamps older than one minute. -/
def cleanup_request_counts (now : ℤ) (ks : List KeyState) : List KeyState :=
  ks.map fun k =>
    { k with request_times := k.request_times.filter (fun t => now - 60 < t) }

/-- Source `AI_engine._calculate_key_load_score` (src/ai_engine.py lines 235-272). -/
def calculate_key_load_score (now : ℤ) (k : KeyState) : ℚ :=
  let requests_this_minute : ℚ := (k.request_times.length : ℚ)
  let time_bonus : ℚ :=
    match k.last_used with
    | some t => min (((now - t : ℤ) : ℚ) / 60) 1
    | none => 1
  let success_bonus : ℚ :=
    if 0 < k.requests then (k.successes : ℚ) / (k.requests : ℚ) else 1
  max 0 (requests_this_minute * k.weight - (time_bonus + success_bonus))

/-- Modelled from the words of the spec (section 4.2 / claim C6): load score
`(requests_in_last_60s * weight) - (recency_bonus + success_bonus)` clamped at
a floor of 0, recency bonus `min(seconds_since_last_use / 60, 1.0)` (1.0 when
never used), success bonus the historical success rate (1.0 when never used). -/
def claim_load_score (now : ℤ) (k : KeyState) : ℚ :=
  let requests_in_last_60s : ℚ := (k.request_times.length : ℚ)
  let recency_bonus : ℚ :=
    match k.last_used with
    | none => 1
    | some t => min (((now - t : ℤ) : ℚ) / 60) 1
  let success_bonus : ℚ :=
    if k.requests = 0 then 1 else (k.successes : ℚ) / (k.requests : ℚ)
  max 0 (requests_in_last_60s * k.weight - (recency_bonus + success_bonus))

/-- The rate-limit skip test inside the selection loop of
`AI_engine._select_optimal_key`: a key is scored unless it is rate limited
and was last used less than 60 seconds ago. -/
def keyScoredB (now : ℤ) (k : KeyState) : Bool :=
  !(k.rate_limited &&
    (match k.last_used with
     | some t => decide (now - t < 60)
     | none => false))

/-- The selection loop of `AI_engine._select_optimal_key` (src/ai_engine.py
lines 208-228): walk the keys in index order, skip rate-limited keys still in
cooldown, lazily clear the rate-limited flag of cooled-down keys, and collect
(index, load score) pairs for the scored keys.  Returns the updated key list
and the scored candidates. -/
def selectScan (now : ℤ) : Nat → List KeyState → List KeyState × List (Nat × ℚ)
  | _, [] => ([], [])
  | i, k :: ks =>
    let tail := selectScan now (i + 1) ks
    if k.rate_limited then
      match k.last_used with
      | some t =>
        if now - t < 60 then (k :: tail.1, tail.2)
        else
          let k' := { k with rate_limited := false }
          (k' :: tail.1, (i, calculate_key_load_score now k') :: tail.2)
      | none =>
        let k' := { k with rate_limited := false }
        (k' :: tail.1, (i, calculate_key_load_score now k') :: tail.2)
    else (k :: tail.1, (i, calculate_key_load_score now k) :: tail.2)

/-- The `best_score` accumulation of `_select_optimal_key`: keep the first
candidate whose score is strictly below the best so far. -/
def argminLoop : Option (Nat × ℚ) → List (Nat × ℚ) → Option (Nat × ℚ)
  | best, [] => best
  | none, p :: rest => argminLoop (some p) rest
  | some b, p :: rest =>
    if p.2 < b.2 then argminLoop (some p) rest else argminLoop (some b) rest

/-- Source `AI_engine._select_optimal_key` (src/ai_engine.py lines 186-233): no key
for an empty slot list, the single valid key unconditionally, otherwise
clean the request windows and pick the scored candidate with the lowest load
score.  Also returns the (lazily updated) key list. -/
def select_optimal_key (now : ℤ) (ks : List KeyState) : Option Nat × List KeyState :=
  match ks with
  | [] => (none, [])
  | [k] => (some 0, [k])
  | _ =>
    let ks1 := cleanup_request_counts now ks
    let scan := selectScan now 0 ks1
    match argminLoop none scan.2 with
    | some b => (some b.1, scan.1)
    | none => (none, scan.1)

/-- Source `AI_engine._update_key_stats` (src/ai_engine.py lines 304-321) on one
key slot. -/
def update_key_stats_key (now : ℤ) (success : Bool) (k : KeyState) : KeyState :=
  if success then
    { k with successes := k.successes + 1,
             weight := max 0.5 (k.weight * 0.95),
             rate_limited := false,
             last_used := some now }
  else
    { k with failures := k.failures + 1,
             weight := min 2.0 (k.weight * 1.1),
             last_used := some now }

/-- Source `AI_engine._update_key_stats` over the slot list. -/
def update_key_stats (now : ℤ) (key_index : Nat) (success : Bool)
    (ks : List KeyState) : List KeyState :=
  updateAt (update_key_stats_key now success) key_index ks

/-- Source `AI_engine._mark_key_rate_limited` (src/ai_engine.py lines 323-332) on
one key slot: set the flag and force the maximal weight penalty. -/
def mark_key_rate_limited_key (k : KeyState) : KeyState :=
  { k with rate_limited := true, weight := 2.0 }

/-- Source `AI_engine._mark_key_rate_limited` over the slot list. -/
def mark_key_rate_limited (key_index : Nat) (ks : List KeyState) : List KeyState :=
  updateAt mark_key_rate_limited_key key_index ks

/-- Source `AI_engine._track_key_usage` (src/ai_engine.py lines 274-288) on one key
slot: append the request timestamp, bump the request counter, stamp
last-used. -/
def track_key_usage_key (now : ℤ) (k : KeyState) : KeyState :=
  { k with request_times := k.request_times ++ [now],
           requests := k.requests + 1,
           last_used := some now }

/-- Source `AI_engine._track_key_usage` over the slot list. -/
def track_key_usage (now : ℤ) (key_index : Nat) (ks : List KeyState) : List KeyState :=
  updateAt (track_key_usage_key now) key_index ks

/-- C7: every credential weight stays in [0.5, 2.0]: it starts at 1.0, a
recorded success multiplies it by 0.95 floored at 0.5 and clears the
rate-limited flag, a recorded failure multiplies it by 1.1 capped at 2.0,
and marking a key rate limited sets it to exactly 2.0. -/
theorem key_weight_invariant_C7 :
    initKeyState.weight = 1 ∧
    (∀ (now : ℤ) (success : Bool) (k : KeyState),
        1/2 ≤ k.weight ∧ k.weight ≤ 2 →
        1/2 ≤ (update_key_stats_key now success k).weight ∧
          (update_key_stats_key now success k).weight ≤ 2) ∧
    (∀ (now : ℤ) (k : KeyState),
        (update_key_stats_key now true k).weight = max 0.5 (k.weight * 0.95) ∧
        (update_key_stats_key now true k).rate_limited = false ∧
        (update_key_stats_key now false k).weight = min 2.0 (k.weight * 1.1)) ∧
    (∀ k : KeyState,
        (mark_key_rate_limited_key k).weight = 2 ∧
        1/2 ≤ (mark_key_rate_limited_key k).weight ∧
          (mark_key_rate_limited_key k).weight ≤ 2) := by
  refine ⟨rfl, ?_, fun now k => ⟨rfl, rfl, rfl⟩,
    fun k => ⟨by norm_num [mark_key_rate_limited_key], by norm_num [mark_key_rate_limited_key],
      by norm_num [mark_key_rate_limited_key]⟩⟩
  rintro now success k ⟨hlo, hhi⟩
  cases success with
  | true =>
    simp only [update_key_stats_key, if_true]
    constructor
    · rw [le_max_iff]
      left
      norm_num
    · rw [max_le_iff]
      constructor
      · norm_num
      · nlinarith
  | false =>
    simp only [update_key_stats_key, Bool.false_eq_true, if_false]
    constructor
    · rw [le_min_iff]
      constructor
      · norm_num
      · nlinarith
    · exact le_trans (min_le_left _ _) (by norm_num)

theorem key_weight_invariant_C7_witness :
    (1/2 ≤ initKeyState.weight ∧ initKeyState.weight ≤ 2) ∧
    (1/2 ≤ (update_key_stats_key 0 false initKeyState).weight ∧
      (update_key_stats_key 0 false initKeyState).weight ≤ 2) :=
  ⟨by norm_num [initKeyState],
   key_weight_invariant_C7.2.1 0 false initKeyState (by norm_num [initKeyState])⟩

/-- Pair each list element with its ordinal index, starting at `base`. -/
def withIndexFrom {α : Type} : Nat → List α → List (Nat × α)
  | _, [] => []
  | i, x :: xs => (i, x) :: withIndexFrom (i + 1) xs

theorem score_clear_rl (now : ℤ) (k : KeyState) :
    calculate_key_load_score now { k with rate_limited := false } =
      calculate_key_load_score now k := rfl

theorem score_clear_mk (now : ℤ) (a b c : Nat) (lu : Option ℤ) (w : ℚ) (rt : List ℤ) :
    calculate_key_load_score now ⟨a, b, c, lu, false, w, rt⟩ =
      calculate_key_load_score now ⟨a, b, c, lu, true, w, rt⟩ := rfl

theorem selectScan_scored_eq (now : ℤ) :
    ∀ (ks : List KeyState) (base : Nat),
      (selectScan now base ks).2 =
        (withIndexFrom base ks).filterMap
          (fun p => if keyScoredB now p.2
            then some (p.1, calculate_key_load_score now p.2) else none)
  | [], _ => rfl
  | ⟨a, b, c, lu, rl, w, rt⟩ :: ks, base => by
    rw [withIndexFrom, List.filterMap_cons]
    unfold selectScan
    cases rl with
    | false =>
      simp [keyScoredB, selectScan_scored_eq now ks (base + 1)]
    | true =>
      cases lu with
      | none =>
        simp [keyScoredB, score_clear_mk, selectScan_scored_eq now ks (base + 1)]
      | some t =>
        by_cases hlt : now - t < 60
        · simp [keyScoredB, hlt, selectScan_scored_eq now ks (base + 1)]
        · simp [keyScoredB, hlt, score_clear_mk, selectScan_scored_eq now ks (base + 1)]

theorem selectScan_index_bound (now : ℤ) :
    ∀ (ks : List KeyState) (base : Nat) (p : Nat × ℚ),
      p ∈ (selectScan now base ks).2 → base ≤ p.1
  | [], _, p => by simp [selectScan]
  | k :: ks, base, p => by
    unfold selectScan
    have step : p ∈ (selectScan now (base + 1) ks).2 → base ≤ p.1 := fun hp =>
      le_trans (Nat.le_succ base) (selectScan_index_bound now ks (base + 1) p hp)
    cases hrl : k.rate_limited with
    | false =>
      simp only [if_neg (by simp [hrl] : ¬k.rate_limited = true)]
      intro hp
      rcases List.mem_cons.mp hp with rfl | hp'
      · exact le_refl base
      · exact step hp'
    | true =>
      simp only [if_pos hrl]
      cases hlu : k.last_used with
      | none =>
        intro hp
        rcases List.mem_cons.mp hp with rfl | hp'
        · exact le_refl base
        · exact step hp'
      | some t =>
        by_cases hlt : now - t < 60
        · simp only [if_pos hlt]
          exact step
        · simp only [if_neg hlt]
          intro hp
          rcases List.mem_cons.mp hp with rfl | hp'
          · exact le_refl base
          · exact step hp'

theorem selectScan_index_pairwise (now : ℤ) :
    ∀ (ks : List KeyState) (base : Nat),
      List.Pairwise (fun p q => p.1 < q.1) (selectScan now base ks).2
  | [], _ => List.Pairwise.nil
  | k :: ks, base => by
    unfold selectScan
    have tailpw := selectScan_index_pairwise now ks (base + 1)
    have headlt : ∀ q ∈ (selectScan now (base + 1) ks).2, base < q.1 := fun q hq =>
      Nat.lt_of_lt_of_le (Nat.lt_succ_self base) (selectScan_index_bound now ks (base + 1) q hq)
    cases hrl : k.rate_limited with
    | false =>
      simp only [if_neg (by simp [hrl] : ¬k.rate_limited = true)]
      exact List.pairwise_cons.mpr ⟨fun q hq => headlt q hq, tailpw⟩
    | true =>
      simp only [if_pos hrl]
      cases hlu : k.last_used with
      | none =>
        exact List.pairwise_cons.mpr ⟨fun q hq => headlt q hq, tailpw⟩
      | some t =>
        by_cases hlt : now - t < 60
        · simp only [if_pos hlt]
          exact tailpw
        · simp only [if_neg hlt]
          exact List.pairwise_cons.mpr ⟨fun q hq => headlt q hq, tailpw⟩

theorem argminLoop_spec :
    ∀ (l : List (Nat × ℚ)) (b r : Nat × ℚ),
      (∀ p ∈ l, b.1 < p.1) →
      List.Pairwise (fun p q => p.1 < q.1) l →
      argminLoop (some b) l = some r →
      (r = b ∨ r ∈ l) ∧ r.2 ≤ b.2 ∧ (b.2 = r.2 → r = b) ∧
        (∀ p ∈ l, r.2 ≤ p.2 ∧ (p.2 = r.2 → r.1 ≤ p.1))
  | [], b, r, _, _, h => by
    simp only [argminLoop, Option.some_inj] at h
    subst h
    exact ⟨Or.inl rfl, le_refl _, fun _ => rfl, by simp⟩
  | p :: t, b, r, hidx, hpw, h => by
    rw [show argminLoop (some b) (p :: t) =
        if p.2 < b.2 then argminLoop (some p) t else argminLoop (some b) t from rfl] at h
    have hpt : ∀ q ∈ t, p.1 < q.1 := (List.pairwise_cons.mp hpw).1
    have hbt : ∀ q ∈ t, b.1 < q.1 := fun q hq => hidx q (List.mem_cons_of_mem p hq)
    have hpwt := (List.pairwise_cons.mp hpw).2
    by_cases hlt : p.2 < b.2
    · rw [if_pos hlt] at h
      obtain ⟨hmem, hle, heq, hall⟩ := argminLoop_spec t p r hpt hpwt h
      refine ⟨?_, le_trans hle hlt.le, ?_, ?_⟩
      · rcases hmem with rfl | hm
        · exact Or.inr (List.mem_cons_self r t)
        · exact Or.inr (List.mem_cons_of_mem p hm)
      · intro hbe
        exact absurd (lt_of_le_of_lt hle hlt) (by rw [hbe]; exact lt_irrefl _)
      · intro q hq
        rcases List.mem_cons.mp hq with rfl | hqt
        · exact ⟨hle, fun hpe => by rw [heq hpe]⟩
        · exact hall q hqt
    · rw [if_neg hlt] at h
      push_neg at hlt
      obtain ⟨hmem, hle, heq, hall⟩ := argminLoop_spec t b r hbt hpwt h
      refine ⟨?_, hle, heq, ?_⟩
      · rcases hmem with rfl | hm
        · exact Or.inl rfl
        · exact Or.inr (List.mem_cons_of_mem p hm)
      · intro q hq
        rcases List.mem_cons.mp hq with rfl | hqt
        · refine ⟨le_trans hle hlt, fun hpe => ?_⟩
          have hb : b.2 = r.2 := le_antisymm (by rw [← hpe]; exact hlt) hle
          rw [heq hb]
          exact (hidx q (List.mem_cons_self q t)).le
        · exact hall q hqt

theorem argminLoop_none_spec (l : List (Nat × ℚ)) (r : Nat × ℚ)
    (hpw : List.Pairwise (fun p q => p.1 < q.1) l)
    (h : argminLoop none l = some r) :
    r ∈ l ∧ ∀ p ∈ l, r.2 ≤ p.2 ∧ (p.2 = r.2 → r.1 ≤ p.1) := by
  cases l with
  | nil => simp [argminLoop] at h
  | cons p t =>
    rw [show argminLoop none (p :: t) = argminLoop (some p) t from rfl] at h
    obtain ⟨hmem, hle, heq, hall⟩ :=
      argminLoop_spec t p r (List.pairwise_cons.mp hpw).1 (List.pairwise_cons.mp hpw).2 h
    constructor
    · rcases hmem with rfl | hm
      · exact List.mem_cons_self r t
      · exact List.mem_cons_of_mem p hm
    · intro q hq
      rcases List.mem_cons.mp hq with rfl | hqt
      · exact ⟨hle, fun hpe => by rw [heq hpe]⟩
      · exact hall q hqt

theorem load_score_eq_claim (now : ℤ) (k : KeyState) :
    calculate_key_load_score now k = claim_load_score now k := by
  unfold calculate_key_load_score claim_load_score
  rcases k.last_used with _ | t <;> rcases hn : k.requests with _ | n <;> simp [hn]

/-- C6: for a provider with more than one valid credential, every candidate
passing the rate-limit skip is scored with
`(requests_in_last_60s * weight) - (recency_bonus + success_bonus)` clamped
at 0 (recency bonus `min(seconds_since_last_use / 60, 1)`, 1 when never
used; success bonus the success rate, 1 when never used), and the selected
index carries the lowest score among the scored candidates, ties broken by
the lowest index. -/
theorem key_selection_C6 (now : ℤ) (ks : List KeyState) (hlen : 2 ≤ ks.length) :
    (∀ k : KeyState, calculate_key_load_score now k = claim_load_score now k) ∧
    ((selectScan now 0 (cleanup_request_counts now ks)).2 =
      (withIndexFrom 0 (cleanup_request_counts now ks)).filterMap
        (fun p => if keyScoredB now p.2
          then some (p.1, calculate_key_load_score now p.2) else none)) ∧
    (∀ i : Nat, (select_optimal_key now ks).1 = some i →
      ∃ s : ℚ, (i, s) ∈ (selectScan now 0 (cleanup_request_counts now ks)).2 ∧
        ∀ p ∈ (selectScan now 0 (cleanup_request_counts now ks)).2,
          s ≤ p.2 ∧ (p.2 = s → i ≤ p.1)) := by
  refine ⟨fun k => load_score_eq_claim now k, selectScan_scored_eq now _ 0, ?_⟩
  intro i hi
  rcases ks with _ | ⟨a, _ | ⟨b, rest⟩⟩
  · simp at hlen
  · simp at hlen
  · simp only [select_optimal_key] at hi
    rcases harg : argminLoop none
        (selectScan now 0 (cleanup_request_counts now (a :: b :: rest))).2 with _ | r
    · rw [harg] at hi
      simp at hi
    · rw [harg] at hi
      simp only [Option.some_inj] at hi
      obtain ⟨hmem, hall⟩ :=
        argminLoop_none_spec _ r (selectScan_index_pairwise now _ 0) harg
      subst hi
      exact ⟨r.2, hmem, hall⟩

/-- Two credential slots exercising `key_selection_C6`: slot 0 is freshly
rate limited (last used 5 seconds ago), slot 1 is unused. -/
def witnessKeys : List KeyState :=
  [⟨0, 0, 0, some 95, true, 1, []⟩, initKeyState]

theorem key_selection_C6_witness :
    2 ≤ witnessKeys.length ∧
    (select_optimal_key 100 witnessKeys).1 = some 1 ∧
    (∃ s : ℚ, (1, s) ∈ (selectScan 100 0 (cleanup_request_counts 100 witnessKeys)).2 ∧
      ∀ p ∈ (selectScan 100 0 (cleanup_request_counts 100 witnessKeys)).2,
        s ≤ p.2 ∧ (p.2 = s → 1 ≤ p.1)) := by
  refine ⟨by norm_num [witnessKeys], ?_, ?_⟩
  · norm_num [select_optimal_key, witnessKeys, initKeyState, cleanup_request_counts,
      selectScan, calculate_key_load_score, argminLoop]
  · exact (key_selection_C6 100 witnessKeys (by norm_num [witnessKeys])).2.2 1
      (by norm_num [select_optimal_key, witnessKeys, initKeyState, cleanup_request_counts,
        selectScan, calculate_key_load_score, argminLoop])

/-! ## Flagging state machine and failure remediation (src/ai_engine.py)

Engine-level state is modelled per provider: `flag` is the provider's entry
in `flagged_keys`, `stats` its entry in `usage_stats`, `consecutive` its
entry in the separate `consecutive_failures` dict, `current_key` its entry
in `provider_key_rotation`, and `keys` its credential slots. -/

/-- An entry of `flagged_keys`: `_flag_provider` writes the `reason` field,
`_flag_key` writes the `error_type` and `consecutive_failures` fields. -/
structure FlagInfo where
  flagged_at : ℤ
  flag_until : ℤ
  reason : Option String
  error_type : Option String
  consecutive_failures : Option Nat
deriving DecidableEq

/-- An entry of `usage_stats` (src/ai_engine.py lines 65-74). -/
structure UsageStats where
  requests : Nat
  successes : Nat
  failures : Nat
  total_response_time : ℚ
  last_used : Option ℤ
  consecutive_failures : Nat
  flagged : Bool
  enabled : Bool
deriving DecidableEq

/-- The `ENGINE_SETTINGS` consumed by the engine (rotation toggles and the
configurable consecutive-failure limit, default 5). -/
structure Settings where
  key_rotation_enabled : Bool
  provider_rotation_enabled : Bool
  consecutive_failure_limit : Nat
deriving DecidableEq

/-- The per-provider slice of the engine state plus the static priority. -/
structure ProviderEntry where
  priority : Nat
  flag : Option FlagInfo
  stats : UsageStats
  consecutive : Nat
  current_key : Nat
  keys : List KeyState
deriving DecidableEq

/-- The per-provider state installed by `AI_engine.__init__` for a provider
with one valid key, priority `priority`, and no recorded history. -/
def init_provider_entry (priority : Nat) : ProviderEntry :=
  ⟨priority, none, ⟨0, 0, 0, 0, none, 0, false, true⟩, 0, 0, [initKeyState]⟩

/-- Source `AI_engine._flag_provider` (src/ai_engine.py lines 468-479). -/
def flag_provider (now : ℤ) (duration_minutes : ℤ) (e : ProviderEntry) : ProviderEntry :=
  { e with
    flag := some ⟨now, now + duration_minutes * 60, some "consecutive_failures", none, none⟩,
    stats := { e.stats with flagged := true } }

/-- Local midnight after `now`, for nonnegative epoch-second clocks:
`current_time.replace(hour=0, minute=0, second=0, microsecond=0) + timedelta(days=1)`. -/
def next_midnight (now : ℤ) : ℤ :=
  (now / 86400 + 1) * 86400

/-- Source `AI_engine._flag_key` (src/ai_engine.py lines 481-505): one hour for
rate_limit/auth_error, until local midnight for daily_limit, 30 minutes
otherwise. -/
def flag_key (now : ℤ) (error_type : String) (e : ProviderEntry) : ProviderEntry :=
  let flag_until :=
    if error_type = "rate_limit" ∨ error_type = "auth_error" then now + 3600
    else if error_type = "daily_limit" then next_midnight now
    else now + 30 * 60
  { e with
    flag := some ⟨now, flag_until, none, some error_type,
      some e.stats.consecutive_failures⟩ }

/-- Source `AI_engine._get_current_api_key` (src/ai_engine.py lines 165-184):
select the optimal key, remember it in `provider_key_rotation`, and track its
usage. -/
def get_current_api_key (now : ℤ) (e : ProviderEntry) : Option Nat × ProviderEntry :=
  match e.keys with
  | [] => (none, e)
  | _ :: _ =>
    match select_optimal_key now e.keys with
    | (none, ks) => (none, { e with keys := ks })
    | (some i, ks) => (some i, { e with keys := track_key_usage now i ks, current_key := i })

/-- Source `AI_engine._rotate_api_key` (src/ai_engine.py lines 363-395): with
rotation disabled or at most one key fall back to `_get_current_api_key`;
otherwise penalize the current key as rate limited and move the rotation
pointer to the best remaining key. -/
def rotate_api_key (S : Settings) (now : ℤ) (e : ProviderEntry) :
    Option Nat × ProviderEntry :=
  if S.key_rotation_enabled = false then get_current_api_key now e
  else
    match e.keys with
    | [] => (none, e)
    | [_] => get_current_api_key now e
    | _ =>
      match select_optimal_key now (mark_key_rate_limited e.current_key e.keys) with
      | (none, ks) => (none, { e with keys := ks })
      | (some i, ks) => (some i, { e with keys := ks, current_key := i })

/-- Source `AI_engine._update_stats` (src/ai_engine.py lines 586-606): bump the
request counters and the current key's stats; on failure also bump the
failure counters and auto-flag at the hard-coded threshold of 5 consecutive
failures. -/
def update_stats (now : ℤ) (success : Bool) (response_time : ℚ)
    (e : ProviderEntry) : ProviderEntry :=
  let stats1 := { e.stats with
    requests := e.stats.requests + 1
    last_used := some now
    total_response_time := e.stats.total_response_time + response_time }
  let e1 := { e with
    stats := stats1
    keys := update_key_stats now e.current_key success e.keys }
  if success then
    { e1 with stats := { e1.stats with
        successes := e1.stats.successes + 1
        consecutive_failures := 0 } }
  else
    let e2 := { e1 with stats := { e1.stats with
        failures := e1.stats.failures + 1
        consecutive_failures := e1.stats.consecutive_failures + 1 } }
    if 5 ≤ e2.stats.consecutive_failures then flag_key now "consecutive_failures" e2
    else e2

/-- Source `AI_engine._handle_provider_failure` (src/ai_engine.py lines 397-447). -/
def handle_provider_failure (S : Settings) (now : ℤ) (error_message : String)
    (status_code : Nat) (response_json : Option String) (e : ProviderEntry) :
    ProviderEntry :=
  let error_type := classify_error error_message status_code response_json
  let consecutive_count := e.consecutive + 1
  let e1 := { e with
    consecutive := consecutive_count
    stats := { e.stats with
      failures := e.stats.failures + 1
      consecutive_failures := consecutive_count } }
  let e2 :=
    if error_type = "rate_limit" ∨ error_type = "auth_error" ∨
        error_type = "quota_exceeded" then
      if S.key_rotation_enabled then flag_key now error_type (rotate_api_key S now e1).2
      else flag_provider now 15 e1
    else if error_type = "service_unavailable" ∨ error_type = "server_error" ∨
        error_type = "network_error" then
      flag_provider now 10 e1
    else e1
  if S.consecutive_failure_limit ≤ consecutive_count then flag_provider now 30 e2
  else if error_type = "unknown" ∧ S.key_rotation_enabled = true ∧
      2 ≤ consecutive_count then
    (rotate_api_key S now e2).2
  else e2

/-- Source `AI_engine._handle_provider_success` (src/ai_engine.py lines 449-466):
reset the consecutive-failure counters, record the success, and delete any
flag on the provider. -/
def handle_provider_success (now : ℤ) (response_time : ℚ) (e : ProviderEntry) :
    ProviderEntry :=
  { e with
    consecutive := 0
    stats := { e.stats with
      successes := e.stats.successes + 1
      consecutive_failures := 0
      last_used := some now
      total_response_time := e.stats.total_response_time + response_time }
    flag := none }

/-- Source `AI_engine._is_key_flagged` (src/ai_engine.py lines 147-163): lazily
remove an expired flag, returning whether the provider is still flagged. -/
def is_key_flagged (now : ℤ) (e : ProviderEntry) : Bool × ProviderEntry :=
  match e.flag with
  | none => (false, e)
  | some f => if f.flag_until < now then (false, { e with flag := none }) else (true, e)

/-! ## Rotation and failover engine (src/ai_engine.py lines 574-679)

A network attempt is abstracted by an oracle from provider names to the
outcome of `_make_request` for that provider in this call (each candidate is
attempted at most once per call): either a returned `RequestResult` or a
raised exception, together with the measured latency. -/

/-- One provider attempt as `chat_completion` observes it. -/
inductive Attempt where
  | completed (r : RequestResult) (response_time : ℚ)
  | raised (message : String) (response_time : ℚ)

/-- The engine state `chat_completion` reads and writes. -/
structure EngineState where
  providers : List (String × ProviderEntry)
  current_provider : Option String
deriving DecidableEq

/-- Dictionary lookup by provider name. -/
def getEntry : List (String × ProviderEntry) → String → Option ProviderEntry
  | [], _ => none
  | (q, e) :: rest, p => if q = p then some e else getEntry rest p

/-- Dictionary update by provider name (first occurrence). -/
def setEntry : List (String × ProviderEntry) → String → ProviderEntry →
    List (String × ProviderEntry)
  | [], _, _ => []
  | (q, e) :: rest, p, e' =>
    if q = p then (q, e') :: rest else (q, e) :: setEntry rest p e'

/-- The lazy flag-expiry pass performed by `_get_available_providers` when it
calls `_is_key_flagged` on every provider. -/
def refreshFlags (now : ℤ) (ps : List (String × ProviderEntry)) :
    List (String × ProviderEntry) :=
  ps.map (fun pe => (pe.1, (is_key_flagged now pe.2).2))

/-- Stable insertion for the priority sort of `_get_available_providers`
(`available.sort(key=lambda x: x[1]["priority"])`). -/
def insertByPriority (x : String × ProviderEntry) :
    List (String × ProviderEntry) → List (String × ProviderEntry)
  | [] => [x]
  | y :: ys =>
    if y.2.priority < x.2.priority then y :: insertByPriority x ys else x :: y :: ys

/-- Stable sort by ascending priority. -/
def sortByPriority (ps : List (String × ProviderEntry)) :
    List (String × ProviderEntry) :=
  ps.foldr insertByPriority []

/-- Source `AI_engine._get_available_providers` (src/ai_engine.py lines 574-584):
drop expired flags, keep un-flagged providers, sort ascending by priority.
Returns the refreshed provider map and the candidate names in order. -/
def get_available_providers (now : ℤ) (ps : List (String × ProviderEntry)) :
    List (String × ProviderEntry) × List String :=
  let ps' := refreshFlags now ps
  (ps', (sortByPriority (ps'.filter (fun pe => !(is_key_flagged now pe.2).1))).map Prod.fst)

/-- The failure path of one loop iteration of `chat_completion`:
`_update_stats(provider, False, rt)` followed by
`_handle_provider_failure(provider, msg, status, body)`. -/
def failed_update (S : Settings) (now : ℤ) (msg : String) (status : Nat)
    (body : Option String) (rt : ℚ) (e : ProviderEntry) : ProviderEntry :=
  handle_provider_failure S now msg status body (update_stats now false rt e)

/-- The candidate loop of `AI_engine.chat_completion` (src/ai_engine.py lines
622-679): try each candidate in order; a success is stamped with the provider
and latency and returned immediately; a failure (or a raised exception,
treated as a failure with status 0 and no body) updates that provider's state
and moves on; exhaustion yields the "all_failed" result. -/
def chat_loop (S : Settings) (now : ℤ) (oracle : String → Attempt) :
    List String → List (String × ProviderEntry) →
      RequestResult × List (String × ProviderEntry)
  | [], st => (⟨false, "", 0, 0, "All providers failed", "all_failed", "", none⟩, st)
  | p :: rest, st =>
    match getEntry st p with
    | none => chat_loop S now oracle rest st
    | some e =>
      match oracle p with
      | .completed r rt =>
        if r.success then
          ({ r with provider_used := p, response_time := rt },
           setEntry st p (handle_provider_success now rt (update_stats now true rt e)))
        else
          chat_loop S now oracle rest
            (setEntry st p
              (failed_update S now r.error_message r.status_code r.raw_response rt e))
      | .raised m rt =>
        chat_loop S now oracle rest
          (setEntry st p (failed_update S now m 0 none rt e))

/-- Source `AI_engine.chat_completion` (src/ai_engine.py lines 608-679). -/
def chat_completion (S : Settings) (now : ℤ) (oracle : String → Attempt)
    (eng : EngineState) : RequestResult × EngineState :=
  let avail := get_available_providers now eng.providers
  if avail.2 = [] then
    (⟨false, "", 0, 0, "No available providers", "no_providers", "", none⟩,
     { eng with providers := avail.1 })
  else
    let res := chat_loop S now oracle avail.2 avail.1
    (res.1,
     { providers := res.2,
       current_provider :=
         if res.1.success then some res.1.provider_used else eng.current_provider })

/-- The failure of an attempt, as the loop of `chat_completion` sees it. -/
def attemptFails (oracle : String → Attempt) (q : String) : Prop :=
  match oracle q with
  | .completed r _ => r.success = false
  | .raised _ _ => True

/-! ## State-plumbing lemmas for the remediation handler -/

theorem get_current_preserves (now : ℤ) (e : ProviderEntry) :
    ((get_current_api_key now e).2).priority = e.priority ∧
    ((get_current_api_key now e).2).stats = e.stats ∧
    ((get_current_api_key now e).2).flag = e.flag ∧
    ((get_current_api_key now e).2).consecutive = e.consecutive := by
  unfold get_current_api_key
  cases hk : e.keys with
  | nil => exact ⟨rfl, rfl, rfl, rfl⟩
  | cons k ks =>
    rcases hs : select_optimal_key now (k :: ks) with ⟨_ | i, ks2⟩ <;>
      exact ⟨rfl, rfl, rfl, rfl⟩

theorem rotate_preserves (S : Settings) (now : ℤ) (e : ProviderEntry) :
    ((rotate_api_key S now e).2).priority = e.priority ∧
    ((rotate_api_key S now e).2).stats = e.stats ∧
    ((rotate_api_key S now e).2).flag = e.flag ∧
    ((rotate_api_key S now e).2).consecutive = e.consecutive := by
  unfold rotate_api_key
  by_cases hrot : S.key_rotation_enabled = false
  · rw [if_pos hrot]
    exact get_current_preserves now e
  · rw [if_neg hrot]
    cases hk : e.keys with
    | nil => exact ⟨rfl, rfl, rfl, rfl⟩
    | cons k ks =>
      cases ks with
      | nil => exact get_current_preserves now e
      | cons k2 ks2 =>
        rcases hs : select_optimal_key now
            (mark_key_rate_limited e.current_key (k :: k2 :: ks2)) with ⟨_ | i, ksx⟩ <;>
          exact ⟨rfl, rfl, rfl, rfl⟩

theorem rotate_stats (S : Settings) (now : ℤ) (e : ProviderEntry) :
    ((rotate_api_key S now e).2).stats = e.stats :=
  (rotate_preserves S now e).2.1

theorem rotate_flag (S : Settings) (now : ℤ) (e : ProviderEntry) :
    ((rotate_api_key S now e).2).flag = e.flag :=
  (rotate_preserves S now e).2.2.1

theorem rotate_consecutive (S : Settings) (now : ℤ) (e : ProviderEntry) :
    ((rotate_api_key S now e).2).consecutive = e.consecutive :=
  (rotate_preserves S now e).2.2.2

theorem flag_key_stats (now : ℤ) (t : String) (e : ProviderEntry) :
    (flag_key now t e).stats = e.stats := rfl

theorem flag_key_consecutive (now : ℤ) (t : String) (e : ProviderEntry) :
    (flag_key now t e).consecutive = e.consecutive := rfl

theorem flag_provider_failures (now d : ℤ) (e : ProviderEntry) :
    (flag_provider now d e).stats.failures = e.stats.failures := rfl

theorem flag_provider_cf (now d : ℤ) (e : ProviderEntry) :
    (flag_provider now d e).stats.consecutive_failures =
      e.stats.consecutive_failures := rfl

theorem flag_provider_consecutive (now d : ℤ) (e : ProviderEntry) :
    (flag_provider now d e).consecutive = e.consecutive := rfl

theorem flag_provider_flag (now d : ℤ) (e : ProviderEntry) :
    (flag_provider now d e).flag =
      some ⟨now, now + d * 60, some "consecutive_failures", none, none⟩ := rfl

theorem update_stats_false_counters (now : ℤ) (rt : ℚ) (e : ProviderEntry) :
    (update_stats now false rt e).stats.failures = e.stats.failures + 1 ∧
    (update_stats now false rt e).stats.consecutive_failures =
      e.stats.consecutive_failures + 1 ∧
    (update_stats now false rt e).consecutive = e.consecutive := by
  unfold update_stats
  by_cases h5 : 5 ≤ e.stats.consecutive_failures + 1 <;>
    simp [h5, flag_key_stats, flag_key_consecutive]

theorem handle_failure_counters (S : Settings) (now : ℤ) (msg : String) (status : Nat)
    (body : Option String) (e : ProviderEntry) :
    (handle_provider_failure S now msg status body e).stats.failures =
      e.stats.failures + 1 ∧
    (handle_provider_failure S now msg status body e).consecutive =
      e.consecutive + 1 := by
  simp only [handle_provider_failure]
  constructor <;>
    simp [apply_ite (fun x : ProviderEntry => x.stats.failures),
      apply_ite (fun x : ProviderEntry => x.consecutive),
      flag_provider_failures, flag_key_stats, rotate_stats,
      flag_provider_consecutive, flag_key_consecutive, rotate_consecutive,
      ite_self]

/-- Iterated application of the failure path of one `chat_completion`
iteration (`_update_stats(False)` then `_handle_provider_failure`) against a
single provider. -/
def iterateFailed (S : Settings) (now : ℤ) (msg : String) (status : Nat)
    (body : Option String) (rt : ℚ) : Nat → ProviderEntry → ProviderEntry
  | 0, e => e
  | n + 1, e =>
    iterateFailed S now msg status body rt n (failed_update S now msg status body rt e)

theorem failed_update_failures (S : Settings) (now : ℤ) (msg : String) (status : Nat)
    (body : Option String) (rt : ℚ) (e : ProviderEntry) :
    (failed_update S now msg status body rt e).stats.failures =
      e.stats.failures + 2 := by
  unfold failed_update
  rw [(handle_failure_counters S now msg status body _).1,
    (update_stats_false_counters now rt e).1]

theorem iterate_failed_failures (S : Settings) (now : ℤ) (msg : String) (status : Nat)
    (body : Option String) (rt : ℚ) :
    ∀ (N : Nat) (e : ProviderEntry),
      (iterateFailed S now msg status body rt N e).stats.failures =
        e.stats.failures + 2 * N
  | 0, e => by simp [iterateFailed]
  | n + 1, e => by
    rw [iterateFailed, iterate_failed_failures S now msg status body rt n,
      failed_update_failures]
    omega

/-- C10: each failed attempt inside `chat_completion` increments the
provider's `usage_stats` failure counter twice — once in `_update_stats` and
once more in `_handle_provider_failure` — so N consecutive failed attempts
record 2*N failures; moreover `_update_stats` flags the provider at a
hard-coded threshold of 5 consecutive failures, taking no settings at all,
so with the configurable limit set to 100 the provider is still flagged
after 5 failures. -/
theorem double_failure_count_C10 :
    (∀ (S : Settings) (now : ℤ) (msg : String) (status : Nat) (body : Option String)
        (rt : ℚ) (e : ProviderEntry),
      (failed_update S now msg status body rt e).stats.failures =
        e.stats.failures + 2) ∧
    (∀ (S : Settings) (now : ℤ) (msg : String) (status : Nat) (body : Option String)
        (rt : ℚ) (N : Nat),
      (iterateFailed S now msg status body rt N (init_provider_entry 1)).stats.failures =
        2 * N) ∧
    (∀ (now : ℤ) (rt : ℚ) (e : ProviderEntry),
      4 ≤ e.stats.consecutive_failures →
      (update_stats now false rt e).flag =
        some ⟨now, now + 30 * 60, none, some "consecutive_failures",
          some (e.stats.consecutive_failures + 1)⟩) ∧
    ((iterateFailed ⟨true, true, 100⟩ 0 "unexplained" 400 none 0 5
        (init_provider_entry 1)).flag).isSome = true := by
  refine ⟨failed_update_failures, ?_, ?_, by decide⟩
  · intro S now msg status body rt N
    rw [iterate_failed_failures]
    simp [init_provider_entry]
  · intro now rt e h4
    unfold update_stats
    have h5 : 5 ≤ e.stats.consecutive_failures + 1 := by omega
    simp only [Bool.false_eq_true, if_false, h5, if_true]
    unfold flag_key
    simp

theorem double_failure_count_C10_witness :
    4 ≤ (iterateFailed ⟨true, true, 100⟩ 0 "unexplained" 400 none 0 4
          (init_provider_entry 1)).stats.consecutive_failures ∧
    (update_stats 0 false 0 (iterateFailed ⟨true, true, 100⟩ 0 "unexplained" 400 none 0 4
          (init_provider_entry 1))).flag =
      some ⟨0, 0 + 30 * 60, none, some "consecutive_failures",
        some ((iterateFailed ⟨true, true, 100⟩ 0 "unexplained" 400 none 0 4
          (init_provider_entry 1)).stats.consecutive_failures + 1)⟩ :=
  ⟨by decide,
   double_failure_count_C10.2.2.1 0 0
     (iterateFailed ⟨true, true, 100⟩ 0 "unexplained" 400 none 0 4 (init_provider_entry 1))
     (by decide)⟩

/-! ## First-success and empty/exhausted candidate behaviour (C1, C2) -/

theorem getEntry_setEntry_ne (p q : String) (e' : ProviderEntry) (hne : q ≠ p) :
    ∀ st : List (String × ProviderEntry),
      getEntry (setEntry st p e') q = getEntry st q
  | [] => rfl
  | (n, e) :: rest => by
    by_cases hn : n = p
    · have hq : ¬n = q := fun h => hne (h ▸ hn)
      simp only [setEntry, if_pos hn, getEntry, if_neg hq]
    · by_cases hq : n = q
      · simp only [setEntry, if_neg hn, getEntry, if_pos hq]
      · simp only [setEntry, if_neg hn, getEntry, if_neg hq]
        exact getEntry_setEntry_ne p q e' hne rest

/-- C1: when a candidate's attempt succeeds, the loop returns that outcome
(stamped with the provider and latency) immediately — the remaining
candidates neither influence the result nor have their state touched — and
the provider's consecutive-failure counter is reset to 0 and its flag
removed. -/
theorem first_success_C1 (S : Settings) (now : ℤ) (oracle : String → Attempt)
    (p : String) (rest : List String) (st : List (String × ProviderEntry))
    (e : ProviderEntry) (r : RequestResult) (rt : ℚ)
    (hget : getEntry st p = some e)
    (hor : oracle p = Attempt.completed r rt)
    (hsucc : r.success = true) :
    chat_loop S now oracle (p :: rest) st =
      ({ r with provider_used := p, response_time := rt },
       setEntry st p (handle_provider_success now rt (update_stats now true rt e))) ∧
    (handle_provider_success now rt (update_stats now true rt e)).consecutive = 0 ∧
    (handle_provider_success now rt (update_stats now true rt e)).flag = none ∧
    (∀ q : String, q ≠ p →
      getEntry (setEntry st p (handle_provider_success now rt (update_stats now true rt e))) q =
        getEntry st q) := by
  refine ⟨?_, rfl, rfl, fun q hq => getEntry_setEntry_ne p q _ hq st⟩
  unfold chat_loop
  rw [hget, hor]
  simp [hsucc]

def demoSettings : Settings := ⟨true, true, 5⟩

def demoEntry : ProviderEntry := init_provider_entry 1

def demoState : List (String × ProviderEntry) := [("alpha", demoEntry)]

def demoOk : RequestResult := ⟨true, "hello there", 200, 0, "", "unknown", "", none⟩

def demoOracle : String → Attempt := fun _ => Attempt.completed demoOk 1

theorem first_success_C1_witness :
    getEntry demoState "alpha" = some demoEntry ∧
    demoOracle "alpha" = Attempt.completed demoOk 1 ∧
    demoOk.success = true ∧
    (handle_provider_success 0 1 (update_stats 0 true 1 demoEntry)).consecutive = 0 ∧
    (handle_provider_success 0 1 (update_stats 0 true 1 demoEntry)).flag = none :=
  ⟨rfl, rfl, rfl,
   (first_success_C1 demoSettings 0 demoOracle "alpha" [] demoState demoEntry
     demoOk 1 rfl rfl rfl).2.1,
   (first_success_C1 demoSettings 0 demoOracle "alpha" [] demoState demoEntry
     demoOk 1 rfl rfl rfl).2.2.1⟩

theorem chat_loop_all_fail (S : Settings) (now : ℤ) (oracle : String → Attempt) :
    ∀ (cands : List String) (st : List (String × ProviderEntry)),
      (∀ q ∈ cands, attemptFails oracle q) →
      (chat_loop S now oracle cands st).1 =
        ⟨false, "", 0, 0, "All providers failed", "all_failed", "", none⟩
  | [], _, _ => rfl
  | p :: rest, st, hf => by
    have hrest : ∀ q ∈ rest, attemptFails oracle q := fun q hq =>
      hf q (List.mem_cons_of_mem p hq)
    unfold chat_loop
    cases hget : getEntry st p with
    | none => exact chat_loop_all_fail S now oracle rest st hrest
    | some e =>
      cases hor : oracle p with
      | completed r rt =>
        have hp : r.success = false := by
          have h0 := hf p (List.mem_cons_self p rest)
          unfold attemptFails at h0
          rw [hor] at h0
          exact h0
        simp only [hp, Bool.false_eq_true, if_false]
        exact chat_loop_all_fail S now oracle rest _ hrest
      | raised m rt =>
        exact chat_loop_all_fail S now oracle rest _ hrest

/-- C2: with no eligible candidate, `chat_completion` immediately returns the
"no_providers" failure, independent of the attempt oracle (no network call);
with a nonempty candidate list whose attempts all fail, it returns the
"all_failed" failure. -/
theorem no_providers_all_failed_C2 (S : Settings) (now : ℤ)
    (oracle : String → Attempt) (eng : EngineState) :
    ((get_available_providers now eng.providers).2 = [] →
      chat_completion S now oracle eng =
        (⟨false, "", 0, 0, "No available providers", "no_providers", "", none⟩,
         { providers := (get_available_providers now eng.providers).1,
           current_provider := eng.current_provider }) ∧
      (∀ oracle' : String → Attempt,
        chat_completion S now oracle' eng = chat_completion S now oracle eng)) ∧
    ((get_available_providers now eng.providers).2 ≠ [] →
      (∀ q ∈ (get_available_providers now eng.providers).2, attemptFails oracle q) →
      (chat_completion S now oracle eng).1 =
        ⟨false, "", 0, 0, "All providers failed", "all_failed", "", none⟩) := by
  constructor
  · intro hempty
    constructor
    · unfold chat_completion
      rw [if_pos hempty]
    · intro oracle'
      unfold chat_completion
      rw [if_pos hempty, if_pos hempty]
  · intro hne hfail
    unfold chat_completion
    rw [if_neg hne]
    exact chat_loop_all_fail S now oracle _ _ hfail

def flaggedEntry : ProviderEntry :=
  { init_provider_entry 1 with
    flag := some ⟨0, 1000000, some "consecutive_failures", none, none⟩ }

def flaggedEng : EngineState := ⟨[("alpha", flaggedEntry)], none⟩

def failResult : RequestResult :=
  ⟨false, "", 500, 0, "server exploded", "http_error", "", none⟩

def failOracle : String → Attempt := fun _ => Attempt.completed failResult 1

def freshEng : EngineState := ⟨[("beta", init_provider_entry 1)], none⟩

theorem no_providers_all_failed_C2_witness :
    ((get_available_providers 5 flaggedEng.providers).2 = []) ∧
    (chat_completion demoSettings 5 failOracle flaggedEng).1.error_type = "no_providers" ∧
    ((get_available_providers 0 freshEng.providers).2 ≠ []) ∧
    (chat_completion demoSettings 0 failOracle freshEng).1 =
      ⟨false, "", 0, 0, "All providers failed", "all_failed", "", none⟩ := by
  have h1 : (get_available_providers 5 flaggedEng.providers).2 = [] := by decide
  refine ⟨h1, ?_, by decide, ?_⟩
  · rw [((no_providers_all_failed_C2 demoSettings 5 failOracle flaggedEng).1 h1).1]
  · exact (no_providers_all_failed_C2 demoSettings 0 failOracle freshEng).2
      (by decide) (fun q hq => rfl)

/-! ## Kind-specific cooldowns and the consecutive-failure override (C4, C5) -/

/-- The provider entry after four prior consecutive failures, one valid key. -/
def fourFailEntry : ProviderEntry :=
  { init_provider_entry 1 with
    consecutive := 4
    stats := { (init_provider_entry 1).stats with failures := 4, consecutive_failures := 4 } }

/-- C4 counterexample: a rate_limit failure with rotation enabled whose
consecutive-failure count reaches the configured limit of 5 ends with the
30-minute "consecutive_failures" flag, not the claimed one-hour rate_limit
flag. -/
theorem kind_cooldown_C4_counterexample :
    classify_error "rate limit exceeded" 429 none = "rate_limit" ∧
    (⟨true, true, 5⟩ : Settings).key_rotation_enabled = true ∧
    (handle_provider_failure ⟨true, true, 5⟩ 0 "rate limit exceeded" 429 none
        fourFailEntry).flag =
      some ⟨0, 1800, some "consecutive_failures", none, none⟩ ∧
    ((handle_provider_failure ⟨true, true, 5⟩ 0 "rate limit exceeded" 429 none
        fourFailEntry).flag == some ⟨0, 3600, none, some "rate_limit", some 5⟩) = false := by
  refine ⟨by decide, rfl, ?_, ?_⟩ <;> decide

/-- C4 (amended): when the failure does not bring the consecutive count to
the configured limit, the kind-specific flags hold: 1 hour for
rate_limit/auth_error, until local midnight for daily_limit (in `_flag_key`),
30 minutes otherwise (quota_exceeded) when rotation is enabled; 15 minutes
when rotation is disabled; 10 minutes for
service_unavailable/server_error/network_error. -/
theorem kind_cooldown_C4 (S : Settings) (now : ℤ) (msg : String) (status : Nat)
    (body : Option String) (e : ProviderEntry) (kk : String)
    (hk : classify_error msg status body = kk)
    (hcc : e.consecutive + 1 < S.consecutive_failure_limit) :
    ((kk = "rate_limit" ∨ kk = "auth_error") → S.key_rotation_enabled = true →
      (handle_provider_failure S now msg status body e).flag =
        some ⟨now, now + 3600, none, some kk, some (e.consecutive + 1)⟩) ∧
    (kk = "quota_exceeded" → S.key_rotation_enabled = true →
      (handle_provider_failure S now msg status body e).flag =
        some ⟨now, now + 30 * 60, none, some kk, some (e.consecutive + 1)⟩) ∧
    ((kk = "rate_limit" ∨ kk = "auth_error" ∨ kk = "quota_exceeded") →
      S.key_rotation_enabled = false →
      (handle_provider_failure S now msg status body e).flag =
        some ⟨now, now + 15 * 60, some "consecutive_failures", none, none⟩) ∧
    ((kk = "service_unavailable" ∨ kk = "server_error" ∨ kk = "network_error") →
      (handle_provider_failure S now msg status body e).flag =
        some ⟨now, now + 10 * 60, some "consecutive_failures", none, none⟩) ∧
    (∀ e2 : ProviderEntry, (flag_key now "daily_limit" e2).flag =
      some ⟨now, next_midnight now, none, some "daily_limit",
        some e2.stats.consecutive_failures⟩) := by
  have hnl : ¬(S.consecutive_failure_limit ≤ e.consecutive + 1) := Nat.not_le.mpr hcc
  refine ⟨?_, ?_, ?_, ?_, fun e2 => by simp [flag_key]⟩
  · rintro (rfl | rfl) hrot <;>
      simp [handle_provider_failure, hk, hrot, hnl, flag_key, rotate_stats]
  · rintro rfl hrot
    simp [handle_provider_failure, hk, hrot, hnl, flag_key, rotate_stats]
  · rintro (rfl | rfl | rfl) hrot <;>
      simp [handle_provider_failure, hk, hrot, hnl, flag_provider]
  · rintro (rfl | rfl | rfl) <;>
      simp [handle_provider_failure, hk, hnl, flag_provider]

theorem kind_cooldown_C4_witness :
    classify_error "rate limit exceeded" 429 none = "rate_limit" ∧
    (0 : Nat) + 1 < 5 ∧
    (handle_provider_failure demoSettings 0 "rate limit exceeded" 429 none
        (init_provider_entry 1)).flag =
      some ⟨0, 0 + 3600, none, some "rate_limit", some ((init_provider_entry 1).consecutive + 1)⟩ :=
  ⟨by decide, by decide,
   (kind_cooldown_C4 demoSettings 0 "rate limit exceeded" 429 none
       (init_provider_entry 1) "rate_limit" (by decide) (by decide)).1
     (Or.inl rfl) rfl⟩

/-- C5 counterexample: an unknown-kind failure with rotation enabled and
count at least 2 is NOT rotated without flagging when the count reaches the
configured limit: the provider is flagged for 30 minutes and the keys are
untouched. -/
theorem consecutive_limit_C5_counterexample :
    classify_error "mystery failure" 0 none = "unknown" ∧
    2 ≤ fourFailEntry.consecutive + 1 ∧
    (handle_provider_failure ⟨true, true, 5⟩ 0 "mystery failure" 0 none
        fourFailEntry).flag =
      some ⟨0, 1800, some "consecutive_failures", none, none⟩ ∧
    (handle_provider_failure ⟨true, true, 5⟩ 0 "mystery failure" 0 none
        fourFailEntry).keys = fourFailEntry.keys :=
  ⟨by decide, by decide, by decide, rfl⟩

/-- C5 (amended): on any classified failure that brings the consecutive
count to the configured limit the provider is flagged for 30 minutes; and on
an unknown-kind failure with rotation enabled and count at least 2 but below
the limit, the credential-rotation procedure runs and the provider flag is
left untouched. -/
theorem consecutive_limit_C5 (S : Settings) (now : ℤ) (msg : String) (status : Nat)
    (body : Option String) (e : ProviderEntry) (kk : String)
    (hk : classify_error msg status body = kk) :
    (S.consecutive_failure_limit ≤ e.consecutive + 1 →
      (handle_provider_failure S now msg status body e).flag =
        some ⟨now, now + 30 * 60, some "consecutive_failures", none, none⟩) ∧
    (kk = "unknown" → S.key_rotation_enabled = true →
      2 ≤ e.consecutive + 1 → e.consecutive + 1 < S.consecutive_failure_limit →
      (handle_provider_failure S now msg status body e).flag = e.flag ∧
      handle_provider_failure S now msg status body e =
        (rotate_api_key S now
          { e with
            consecutive := e.consecutive + 1
            stats := { e.stats with
              failures := e.stats.failures + 1
              consecutive_failures := e.consecutive + 1 } }).2) := by
  constructor
  · intro hlim
    simp [handle_provider_failure, hlim, flag_provider]
  · rintro rfl hrot h2 hlt
    have hnl : ¬(S.consecutive_failure_limit ≤ e.consecutive + 1) := Nat.not_le.mpr hlt
    constructor
    · simp [handle_provider_failure, hk, hrot, hnl, h2, rotate_flag]
    · simp [handle_provider_failure, hk, hrot, hnl, h2]

theorem consecutive_limit_C5_witness :
    classify_error "mystery failure" 0 none = "unknown" ∧
    (5 : Nat) ≤ fourFailEntry.consecutive + 1 ∧
    (handle_provider_failure ⟨true, true, 5⟩ 0 "mystery failure" 0 none
        fourFailEntry).flag =
      some ⟨0, 0 + 30 * 60, some "consecutive_failures", none, none⟩ :=
  ⟨by decide, by decide,
   (consecutive_limit_C5 ⟨true, true, 5⟩ 0 "mystery failure" 0 none fourFailEntry
       "unknown" (by decide)).1 (by decide)⟩

end AIEngine
